import Mathlib

/-!
# Verification of the CNDP UDS server core (`pkg/cndp/cndp.go`)

Shallow embedding of the per-allocation IPC server of the CNDP device
plugin: the session state machine of `start`, the identity-validation
algorithm `validateHost`, the descriptor transport `writeWithFD` /
`handleXskRequest`, the device registry (`AddDevice`), and the socket
path generator `generateSocketPath`.

Go strings are modelled as `List Char`; the Go map `devices
map[string]int` is modelled as an association list (the source only ever
performs key lookup, key-membership tests and `len` on it); the pod
resources response of the external allocation service is modelled as a
list of pods, and the fallible gRPC query `getPodResources` as an
`Except Unit` value supplied as an oracle.  Reading from the connection
is modelled by a list of inbound messages: exhaustion of the list stands
for a read error (either ends the session identically in the source).
Writes are modelled as always succeeding; each performed write is
recorded in the output trace as the pair of the response text and the
optionally attached file descriptor.
-/

namespace Cndp

/-- Go `string`, modelled as its list of characters. -/
abbrev Str : Type := List Char

/-- Convenience conversion from a Lean string literal. -/
def chars (s : String) : Str := s.toList

/-! ## Protocol constants (from the `const` block of `cndp.go`) -/

def handshakeVersion : Str := chars "0.1"

def requestVersion : Str := chars "/version"

def requestConnect : Str := chars "/connect"

def responseHostOk : Str := chars "/host_ok"

def responseHostNak : Str := chars "/host_nak"

def requestFd : Str := chars "/xsk_map_fd"

def responseFdAck : Str := chars "/fd_ack"

def responseFdNak : Str := chars "/fd_nak"

def requestFin : Str := chars "/fin"

def responseFinAck : Str := chars "/fin_ack"

def responseBadRequest : Str := chars "/nak"

def responseError : Str := chars "/error"

def usdSockDir : Str := chars "/tmp/"

/-! ## Go string primitives used by the source -/

/-- Go `strings.Split(s, sep)` for a one-character separator: splits
around every occurrence of `sep`, keeping empty fields, and returns one
more field than there are separators (never the empty list). -/
def goSplit (sep : Char) : Str → List Str
  | [] => [[]]
  | c :: cs =>
    if c = sep then
      [] :: goSplit sep cs
    else
      match goSplit sep cs with
      | [] => [[c]]
      | p :: ps => (c :: p) :: ps

/-- Go `strings.Contains(hay, needle)`: `needle` occurs contiguously
somewhere in `hay` (always true for the empty needle). -/
def containsSub (needle : Str) : Str → Bool
  | [] => needle.isEmpty
  | c :: t => needle.isPrefixOf (c :: t) || containsSub needle t

/-- Go `strings.ReplaceAll(s, " ", "")`: drop every space. -/
def removeSpaces (s : Str) : Str := s.filter (fun c => !(c = ' '))

/-- The argument-extraction step shared by the connect handshake
(`start`, lines 218–219) and the descriptor request handler
(`handleXskRequest`, lines 322–323): split the request on commas, take
the second field, strip spaces.  The source indexes `s[1]`
unconditionally; `none` here records the index-out-of-range panic that
Go raises when the split produced fewer than two fields. -/
def parseArg (request : Str) : Option Str :=
  ((goSplit ',' request)[1]?).map removeSpaces

/-! ## Device registry -/

/-- The instance-local device registry `devices map[string]int`,
as an association list from interface name to file descriptor. -/
abbrev Registry : Type := List (Str × Int)

/-- `AddDevice` (line 138–140): Go map assignment `devices[dev] = fd` —
overwrite the entry if the key exists, otherwise add it. -/
def addDevice (devs : Registry) (dev : Str) (fd : Int) : Registry :=
  if (List.lookup dev devs).isSome then
    devs.map (fun p => if p.1 == dev then (dev, fd) else p)
  else
    devs ++ [(dev, fd)]

/-! ## Pod resources (the external allocation table) -/

/-- One allocated device group of a container
(`podresourcesapi.ContainerDevices`): a resource-type label and the list
of allocated device identifiers. -/
structure ContainerDevices where
  resourceName : Str
  deviceIds : List Str
deriving DecidableEq

/-- One container of a pod (`podresourcesapi.ContainerResources`). -/
structure ContainerResources where
  devices : List ContainerDevices
deriving DecidableEq

/-- One pod of the allocation table (`podresourcesapi.PodResources`). -/
structure PodResources where
  name : Str
  containers : List ContainerResources
deriving DecidableEq

/-- `validateHost` lines 348–352 build `podResourceMap` by inserting
every pod keyed by name in iteration order, then index it: the pod
retrieved is the last one in the list bearing the looked-up name. -/
def podLookup (pods : List PodResources) (hostname : Str) :
    Option PodResources :=
  pods.reverse.find? (fun p => p.name == hostname)

/-! ## Identity validator (`validateHost`, lines 339–393) -/

/-- The innermost loop of `validateHost` (lines 375–382): for each
device identifier of the group, set `valid` to whether the identifier is
a key of the registry (the `continue` in the `else` branch is the last
statement of the loop body, so a later membership test overwrites an
earlier mismatch).  Returns the final value of `valid`. -/
def scanIds (devs : Registry) : List Str → Bool → Bool
  | [], valid => valid
  | d :: rest, _ => scanIds devs rest (List.lookup d devs).isSome

/-- The device-group loop of `validateHost` (lines 365–388): skip groups
failing the pre-filter (resource label equal to the instance's label and
identifier count equal to the registry size, lines 367–372); for a
candidate group run `scanIds` threading `valid`, and return early when
`valid` holds afterwards (`none` encodes the early `return true`;
`some v` means the loop finished with `valid = v`). -/
def scanGroups (dt : Str) (devs : Registry) :
    List ContainerDevices → Bool → Option Bool
  | [], valid => some valid
  | g :: rest, valid =>
    if g.resourceName == dt && g.deviceIds.length == devs.length then
      let v := scanIds devs g.deviceIds valid
      if v then none else scanGroups dt devs rest v
    else
      scanGroups dt devs rest valid

/-- The container loop of `validateHost` (line 364): thread `valid`
across containers, propagating the early `return true`. -/
def scanContainers (dt : Str) (devs : Registry) :
    List ContainerResources → Bool → Option Bool
  | [], valid => some valid
  | c :: rest, valid =>
    match scanGroups dt devs c.devices valid with
    | none => none
    | some v => scanContainers dt devs rest v

/-- `validateHost` (lines 339–393).  `podRes` is the result of the
external `getPodResources` query: an `.error` there is returned as the
validator's error together with verdict `false` (line 345,
`return false, err`, modelled by the `Except` error case).  A hostname
absent from the table yields `.ok false` (line 358); otherwise the
verdict is whether the container scan returned early with `valid`
(lines 362–392; reaching the end returns `false`). -/
def validateHost (dt : Str) (devs : Registry)
    (podRes : Except Unit (List PodResources)) (hostname : Str) :
    Except Unit Bool :=
  match podRes with
  | .error e => .error e
  | .ok pods =>
    match podLookup pods hostname with
    | none => .ok false
    | some pod => .ok (scanContainers dt devs pod.containers false).isNone

/-! ## Descriptor transport -/

/-- One performed write: the response text and the optionally attached
file descriptor. -/
abbrev Output : Type := Str × Option Int

/-- `writeWithFD` (lines 302–319): attach the descriptor as ancillary
data only when `fd > 0`, otherwise send the bare message.  (`write`,
line 295, is `writeWithFD response (-1)`.) -/
def writeWithFD (response : Str) (fd : Int) : Output :=
  if fd > 0 then (response, some fd) else (response, none)

/-- `handleXskRequest` (lines 321–337): extract the interface name from
the request; if it is a registry key reply `/fd_ack` with the stored
descriptor via `writeWithFD`, otherwise reply `/fd_nak` with none
attached.  `none` records the `s[1]` panic on a comma-free request. -/
def handleXskRequest (devs : Registry) (request : Str) : Option Output :=
  match parseArg request with
  | none => none
  | some iface =>
    match List.lookup iface devs with
    | some fd => some (writeWithFD responseFdAck fd)
    | none => some (responseFdNak, none)

/-! ## Protocol engine (`start`, lines 146–269) -/

/-- Result of serving one session: the trace of writes performed, and
whether the session ended in the `s[1]` index-out-of-range panic. -/
structure SessionResult where
  outputs : List Output
  crashed : Bool
deriving DecidableEq

/-- The authenticated request loop of `start` (lines 236–268), entered
only with `connected = true`.  Dispatch per inbound message, in source
order: a message containing `/xsk_map_fd` goes to `handleXskRequest`;
an exact `/version` match returns the version string; an exact `/fin`
match returns `/fin_ack` and clears `connected`, so no further message
is read; anything else gets `/nak`.  List exhaustion stands for a read
error, which ends the loop with no further reply. -/
def sessionLoop (devs : Registry) : List Str → SessionResult
  | [] => ⟨[], false⟩
  | req :: rest =>
    if containsSub requestFd req then
      match handleXskRequest devs req with
      | none => ⟨[], true⟩
      | some out =>
        let r := sessionLoop devs rest
        ⟨out :: r.outputs, r.crashed⟩
    else if req == requestVersion then
      let r := sessionLoop devs rest
      ⟨(handshakeVersion, none) :: r.outputs, r.crashed⟩
    else if req == requestFin then
      ⟨[(responseFinAck, none)], false⟩
    else
      let r := sessionLoop devs rest
      ⟨(responseBadRequest, none) :: r.outputs, r.crashed⟩

/-- The session body of `start` after the connection is accepted
(lines 204–269).  The first message must contain `/connect`, otherwise
no reply is sent and the session ends with `connected` still false
(lines 216–217, 236).  For a connect request the hostname is extracted
and validated: on a validator error the source writes `/error`
(line 224) and then — `valid` being false and there being no early
return — falls through to also write `/host_nak` (line 231); verdict
false writes `/host_nak` only; verdict true writes `/host_ok` and
enters the authenticated loop. -/
def startSession (dt : Str) (devs : Registry)
    (podRes : Except Unit (List PodResources)) :
    List Str → SessionResult
  | [] => ⟨[], false⟩
  | req :: rest =>
    if containsSub requestConnect req then
      match parseArg req with
      | none => ⟨[], true⟩
      | some hostname =>
        match validateHost dt devs podRes hostname with
        | .error _ => ⟨[(responseError, none), (responseHostNak, none)], false⟩
        | .ok true =>
          let r := sessionLoop devs rest
          ⟨(responseHostOk, none) :: r.outputs, r.crashed⟩
        | .ok false => ⟨[(responseHostNak, none)], false⟩
    else
      ⟨[], false⟩

/-! ## Path generator (`generateSocketPath`, lines 426–443) -/

/-- `generateSocketPath` (lines 426–443).  The generation oracle lists
the successive results of `uuid.NewV4()`: the produced identifier text
and whether the call returned an error.  The source merely logs the
error (line 432) — there is no `continue` or `return` in that branch —
and proceeds to build the path from the identifier it got; it loops
(regenerating) only when the path already exists according to the
filesystem check `fsExists` (the source breaks when `os.Stat` reports
not-exist).  Oracle exhaustion (`none`) stands for non-termination of
the unbounded source loop. -/
def generateSocketPath (oracle : List (Str × Bool))
    (fsExists : Str → Bool) : Option Str :=
  match oracle with
  | [] => none
  | (name, _err) :: rest =>
    let sockPath := usdSockDir ++ name ++ chars ".sock"
    if fsExists sockPath then
      generateSocketPath rest fsExists
    else
      some sockPath

/-! ## Helper lemmas -/

/-- Splitting a string free of the separator yields the single-field
result. -/
theorem goSplit_of_not_mem (sep : Char) (l : Str) (h : sep ∉ l) :
    goSplit sep l = [l] := by
  induction l with
  | nil => rfl
  | cons c cs ih =>
    have hc : ¬ c = sep := fun hce => h (hce ▸ List.mem_cons_self c cs)
    have hm : sep ∉ cs := fun hmm => h (List.mem_cons_of_mem _ hmm)
    simp [goSplit, hc, ih hm]

/-- A comma-free request has no second field to extract. -/
theorem parseArg_of_no_comma (req : Str) (h : ',' ∉ req) :
    parseArg req = none := by
  simp [parseArg, goSplit_of_not_mem _ _ h]

/-- If `handleXskRequest` produced a reply with a descriptor attached,
the reply is `/fd_ack` and the descriptor is the registry value of some
interface name. -/
theorem handleXskRequest_attach {devs : Registry} {req : Str}
    {out : Output} {fd : Int} (h : handleXskRequest devs req = some out)
    (hfd : out.2 = some fd) :
    ∃ iface, List.lookup iface devs = some fd ∧ out.1 = responseFdAck := by
  cases hp : parseArg req with
  | none => simp [handleXskRequest, hp] at h
  | some iface =>
    cases hl : List.lookup iface devs with
    | none =>
      simp [handleXskRequest, hp, hl] at h
      subst h
      simp at hfd
    | some fd0 =>
      simp [handleXskRequest, hp, hl] at h
      subst h
      by_cases h0 : fd0 > 0
      · simp [writeWithFD, h0] at hfd
        exact ⟨iface, by rw [hl, hfd], by simp [writeWithFD, h0]⟩
      · simp [writeWithFD, h0] at hfd

/-- Any output of the authenticated loop that carries an attached
descriptor is an `/fd_ack` whose descriptor is a registry value. -/
theorem sessionLoop_attach {devs : Registry} {msgs : List Str}
    {out : Output} {fd : Int}
    (hmem : out ∈ (sessionLoop devs msgs).outputs)
    (hfd : out.2 = some fd) :
    ∃ iface, List.lookup iface devs = some fd ∧ out.1 = responseFdAck := by
  induction msgs with
  | nil => simp [sessionLoop] at hmem
  | cons req rest ih =>
    by_cases hc : containsSub requestFd req = true
    · cases hh : handleXskRequest devs req with
      | none => simp [sessionLoop, hc, hh] at hmem
      | some o =>
        simp [sessionLoop, hc, hh] at hmem
        rcases hmem with rfl | hmem
        · exact handleXskRequest_attach hh hfd
        · exact ih hmem
    · by_cases hv : (req == requestVersion) = true
      · simp [sessionLoop, hc, hv] at hmem
        rcases hmem with rfl | hmem
        · simp at hfd
        · exact ih hmem
      · by_cases hf : (req == requestFin) = true
        · simp [sessionLoop, hc, hv, hf] at hmem
          subst hmem
          simp at hfd
        · simp [sessionLoop, hc, hv, hf] at hmem
          rcases hmem with rfl | hmem
          · simp at hfd
          · exact ih hmem

/-! ## Claim theorems -/

/-- Claim C1: the claim states that a device group whose identifier set
is not identical (as a set) to the registry's key set never yields
entitled.  The code violates this: with registry keys `eth1, eth2` and a
candidate group `net, [eth9, eth1]` (label and cardinality pass the
pre-filter), the membership scan sets `valid` to false at `eth9` but
overwrites it to true at `eth1`, so `validateHost` returns entitled even
though `eth9` is not a registry key. -/
theorem validateHost_accepts_nonmatching_group :
    validateHost (chars "net") [(chars "eth1", 7), (chars "eth2", 8)]
      (.ok [⟨chars "podA",
        [⟨[⟨chars "net", [chars "eth9", chars "eth1"]⟩]⟩]⟩])
      (chars "podA") = .ok true
    ∧ List.lookup (chars "eth9")
        [(chars "eth1", (7 : Int)), (chars "eth2", 8)] = none :=
  ⟨rfl, rfl⟩

/-- Claim C2: a reply carrying an attached descriptor occurs in a
session trace only if the first inbound message was a connect request
whose extracted hostname the validator accepted (`.ok true`), and the
attached descriptor is the Device Registry value of some interface
name; before authentication no descriptor-bearing reply is possible. -/
theorem descriptor_only_after_validation
    (dt : Str) (devs : Registry) (podRes : Except Unit (List PodResources))
    (msgs : List Str) (out : Output) (fd : Int)
    (hmem : out ∈ (startSession dt devs podRes msgs).outputs)
    (hfd : out.2 = some fd) :
    (∃ req rest hostname, msgs = req :: rest
        ∧ containsSub requestConnect req = true
        ∧ parseArg req = some hostname
        ∧ validateHost dt devs podRes hostname = .ok true)
    ∧ ∃ iface, List.lookup iface devs = some fd ∧ out.1 = responseFdAck := by
  cases msgs with
  | nil => simp [startSession] at hmem
  | cons req rest =>
    by_cases hc : containsSub requestConnect req = true
    · cases hp : parseArg req with
      | none => simp [startSession, hc, hp] at hmem
      | some hostname =>
        cases hv : validateHost dt devs podRes hostname with
        | error e =>
          simp [startSession, hc, hp, hv] at hmem
          rcases hmem with rfl | rfl <;> simp at hfd
        | ok b =>
          cases b with
          | false =>
            simp [startSession, hc, hp, hv] at hmem
            subst hmem
            simp at hfd
          | true =>
            simp [startSession, hc, hp, hv] at hmem
            rcases hmem with rfl | hmem
            · simp at hfd
            · exact ⟨⟨req, rest, hostname, rfl, hc, hp, hv⟩,
                sessionLoop_attach hmem hfd⟩
    · simp [startSession, hc] at hmem

/-- Witness for C2: the scenario of the spec — registry `eth1 ↦ 7`,
pod `podA` allocated exactly `eth1` of type `net`, messages
`/connect, podA` then `/xsk_map_fd, eth1` — satisfies the theorem's
hypotheses at the descriptor-bearing output `(/fd_ack, 7)`. -/
theorem descriptor_only_after_validation_witness :
    (∃ req rest hostname,
        ([chars "/connect, podA", chars "/xsk_map_fd, eth1"] : List Str)
          = req :: rest
        ∧ containsSub requestConnect req = true
        ∧ parseArg req = some hostname
        ∧ validateHost (chars "net") [(chars "eth1", 7)]
            (.ok [⟨chars "podA", [⟨[⟨chars "net", [chars "eth1"]⟩]⟩]⟩])
            hostname = .ok true)
    ∧ ∃ iface, List.lookup iface [(chars "eth1", (7 : Int))] = some 7
        ∧ ((responseFdAck, some (7 : Int)) : Output).1 = responseFdAck :=
  descriptor_only_after_validation (chars "net") [(chars "eth1", 7)]
    (.ok [⟨chars "podA", [⟨[⟨chars "net", [chars "eth1"]⟩]⟩]⟩])
    [chars "/connect, podA", chars "/xsk_map_fd, eth1"]
    (responseFdAck, some 7) 7 (by decide) rfl

/-- Counterexample for C3: on a validator error the session trace holds
two replies — `/error` followed by `/host_nak` — not the error reply
alone, because after writing `/error` the source falls through to the
`valid`-is-false branch. -/
theorem validator_error_not_single_reply :
    (startSession (chars "net") [(chars "eth1", 7)] (.error ())
        [chars "/connect, podA"]).outputs
      = [(responseError, none), (responseHostNak, none)]
    ∧ ([(responseError, (none : Option Int)), (responseHostNak, none)]
        ≠ [(responseError, none)]) :=
  ⟨rfl, by decide⟩

/-- Claim C3 (amended): when the Identity Validator returns an error
during the connect handshake, the server replies with the error token
followed immediately by the not-entitled token, and then the session
closes; those two replies are the only replies of the session and no
descriptor is attached to either. -/
theorem validator_error_error_then_nak
    (dt : Str) (devs : Registry) (podRes : Except Unit (List PodResources))
    (req : Str) (rest : List Str) (hostname : Str)
    (hc : containsSub requestConnect req = true)
    (hp : parseArg req = some hostname)
    (hv : validateHost dt devs podRes hostname = .error ()) :
    startSession dt devs podRes (req :: rest) =
      ⟨[(responseError, none), (responseHostNak, none)], false⟩ := by
  simp [startSession, hc, hp, hv]

/-- Witness for C3's amended theorem: a concrete handshake against a
failing allocation query. -/
theorem validator_error_error_then_nak_witness :
    startSession (chars "net") [(chars "eth1", 7)] (.error ())
      [chars "/connect, podA"] =
      ⟨[(responseError, none), (responseHostNak, none)], false⟩ :=
  validator_error_error_then_nak (chars "net") [(chars "eth1", 7)]
    (.error ()) (chars "/connect, podA") [] (chars "podA") rfl rfl rfl

/-- Claim C4: a claimed identity that is absent from the allocation
table yields the not-entitled verdict `.ok false`, never an error. -/
theorem validateHost_absent_not_entitled
    (dt : Str) (devs : Registry) (pods : List PodResources)
    (hostname : Str)
    (habs : ∀ p ∈ pods, (p.name == hostname) = false) :
    validateHost dt devs (.ok pods) hostname = .ok false := by
  have hl : podLookup pods hostname = none := by
    rw [podLookup, List.find?_eq_none]
    intro p hp
    simp [habs p (List.mem_reverse.mp hp)]
  simp [validateHost, hl]

/-- Witness for C4: `podB` is not among the pods of the table. -/
theorem validateHost_absent_not_entitled_witness :
    validateHost (chars "net") [(chars "eth1", 7)]
      (.ok [⟨chars "podA", []⟩]) (chars "podB") = .ok false :=
  validateHost_absent_not_entitled (chars "net") [(chars "eth1", 7)]
    [⟨chars "podA", []⟩] (chars "podB") (by decide)

/-- Claim C5: a session whose first inbound message does not contain the
connect token receives no reply at all and ends immediately. -/
theorem non_connect_first_message_silent
    (dt : Str) (devs : Registry) (podRes : Except Unit (List PodResources))
    (req : Str) (rest : List Str)
    (hc : containsSub requestConnect req = false) :
    startSession dt devs podRes (req :: rest) = ⟨[], false⟩ := by
  simp [startSession, hc]

/-- Witness for C5: a session opening with a descriptor request instead
of a connect request is abandoned silently. -/
theorem non_connect_first_message_silent_witness :
    startSession (chars "net") [(chars "eth1", 7)] (.ok [])
      [chars "/xsk_map_fd, eth1"] = ⟨[], false⟩ :=
  non_connect_first_message_silent (chars "net") [(chars "eth1", 7)]
    (.ok []) (chars "/xsk_map_fd, eth1") [] rfl

/-- Counterexample for C6: with a device registered under descriptor
value `0` (as `AddDevice` permits), the descriptor request for it is
answered with the positive token `/fd_ack` but with nothing attached —
not with that interface's descriptor attached, since
`writeWithFD` only attaches strictly positive values. -/
theorem registered_zero_descriptor_not_attached :
    (sessionLoop [(chars "eth1", 0)] [chars "/xsk_map_fd, eth1"]).outputs
      = [(responseFdAck, none)]
    ∧ List.lookup (chars "eth1") [(chars "eth1", (0 : Int))] = some 0
    ∧ ((none : Option Int) ≠ some 0) :=
  ⟨rfl, rfl, by decide⟩

/-- Claim C6 (amended): in the authenticated state, a descriptor request
naming a registered interface whose stored descriptor is strictly
positive is answered with `/fd_ack` carrying exactly that descriptor
attached, and a request naming an unregistered interface is answered
with `/fd_nak` carrying no descriptor; in both cases the session
continues with the remaining messages. -/
theorem fd_request_lookup_replies :
    (∀ (devs : Registry) (req iface : Str) (fd : Int) (rest : List Str),
        containsSub requestFd req = true → parseArg req = some iface →
        List.lookup iface devs = some fd → 0 < fd →
        sessionLoop devs (req :: rest) =
          ⟨(responseFdAck, some fd) :: (sessionLoop devs rest).outputs,
            (sessionLoop devs rest).crashed⟩)
    ∧ (∀ (devs : Registry) (req iface : Str) (rest : List Str),
        containsSub requestFd req = true → parseArg req = some iface →
        List.lookup iface devs = none →
        sessionLoop devs (req :: rest) =
          ⟨(responseFdNak, none) :: (sessionLoop devs rest).outputs,
            (sessionLoop devs rest).crashed⟩) := by
  constructor
  · intro devs req iface fd rest hc hp hl hpos
    simp [sessionLoop, hc, handleXskRequest, hp, hl, writeWithFD, hpos]
  · intro devs req iface rest hc hp hl
    simp [sessionLoop, hc, handleXskRequest, hp, hl]

/-- Witness for C6's amended theorem: registry `eth1 ↦ 7`; the request
for `eth1` gets `/fd_ack` with 7 attached, the request for the
unregistered `eth9` gets `/fd_nak` with nothing attached. -/
theorem fd_request_lookup_replies_witness :
    sessionLoop [(chars "eth1", 7)] [chars "/xsk_map_fd, eth1"] =
      ⟨[(responseFdAck, some 7)], false⟩
    ∧ sessionLoop [(chars "eth1", 7)] [chars "/xsk_map_fd, eth9"] =
      ⟨[(responseFdNak, none)], false⟩ :=
  ⟨fd_request_lookup_replies.1 [(chars "eth1", 7)]
      (chars "/xsk_map_fd, eth1") (chars "eth1") 7 [] rfl rfl rfl
      (by decide),
   fd_request_lookup_replies.2 [(chars "eth1", 7)]
      (chars "/xsk_map_fd, eth9") (chars "eth9") [] rfl rfl rfl⟩

/-- Claim C7: while authenticated, a `/fin` request yields exactly the
single `/fin_ack` reply, and no further inbound message is read — the
trace is independent of everything after the `/fin`. -/
theorem fin_request_single_ack (devs : Registry) (rest : List Str) :
    sessionLoop devs (requestFin :: rest) =
      ⟨[(responseFinAck, none)], false⟩ := rfl

/-- Counterexample for C8: a generation whose random-identifier step
failed (error flag `true`) is not retried — the generator returns the
path built from that very failed generation, consuming no further
generation attempt. -/
theorem generateSocketPath_uses_failed_generation :
    generateSocketPath [(chars "u0", true)] (fun _ => false) =
      some (chars "/tmp/u0.sock") := rfl

/-- Claim C8 (amended): a failure of the random-identifier generation is
only logged — the loop proceeds with the identifier that the failed
generation produced rather than regenerating or aborting; regeneration
happens only when the built path already exists.  Whenever the generator
returns a path, that path lies under the well-known directory and did
not exist at the time of the filesystem check. -/
theorem generateSocketPath_fresh_path :
    (∀ (oracle : List (Str × Bool)) (fsExists : Str → Bool) (p : Str),
        generateSocketPath oracle fsExists = some p →
        usdSockDir <+: p ∧ fsExists p = false)
    ∧ (∀ (name : Str) (rest : List (Str × Bool)) (fsExists : Str → Bool),
        fsExists (usdSockDir ++ name ++ chars ".sock") = false →
        generateSocketPath ((name, true) :: rest) fsExists =
          some (usdSockDir ++ name ++ chars ".sock")) := by
  constructor
  · intro oracle fs p h
    induction oracle with
    | nil => simp [generateSocketPath] at h
    | cons hd tl ih =>
      obtain ⟨name, err⟩ := hd
      by_cases hfs : fs (usdSockDir ++ name ++ chars ".sock") = true
      · rw [generateSocketPath] at h
        simp only [hfs, if_true] at h
        exact ih h
      · rw [generateSocketPath] at h
        simp only [hfs, if_false, Bool.false_eq_true] at h
        have hp : usdSockDir ++ name ++ chars ".sock" = p := by
          simpa using h
        subst hp
        refine ⟨⟨name ++ chars ".sock", (List.append_assoc _ _ _).symm⟩, ?_⟩
        simpa using hfs
  · intro name rest fs h
    have h2 : fs (usdSockDir ++ (name ++ chars ".sock")) = false := by
      simpa [List.append_assoc] using h
    simp [generateSocketPath, h2]

/-- Witness for C8's amended theorem: a failed generation with a
collision-free filesystem returns its freshly built path, which lies
under `/tmp/` and did not exist. -/
theorem generateSocketPath_fresh_path_witness :
    (usdSockDir <+: chars "/tmp/u1.sock"
      ∧ (fun _ : Str => false) (chars "/tmp/u1.sock") = false)
    ∧ generateSocketPath [(chars "u1", true)] (fun _ => false) =
        some (usdSockDir ++ chars "u1" ++ chars ".sock") :=
  ⟨generateSocketPath_fresh_path.1 [(chars "u1", true)] (fun _ => false)
      (chars "/tmp/u1.sock") rfl,
   generateSocketPath_fresh_path.2 (chars "u1") [] (fun _ => false) rfl⟩

/-- Claim C9: a message that contains an argument-bearing token (the
connect token as first message, or the descriptor-request token while
authenticated) but no comma drives the parser into indexing the second
field of a one-field split: the session ends in the index-out-of-range
panic (`crashed`), reachable from the public interface. -/
theorem no_comma_requests_crash :
    (∀ (dt : Str) (devs : Registry)
        (podRes : Except Unit (List PodResources)) (req : Str)
        (rest : List Str),
        containsSub requestConnect req = true → (',' ∈ req → False) →
        startSession dt devs podRes (req :: rest) = ⟨[], true⟩)
    ∧ (∀ (devs : Registry) (req : Str) (rest : List Str),
        containsSub requestFd req = true → (',' ∈ req → False) →
        sessionLoop devs (req :: rest) = ⟨[], true⟩) := by
  constructor
  · intro dt devs podRes req rest hc hnc
    simp [startSession, hc, parseArg_of_no_comma req hnc]
  · intro devs req rest hc hnc
    simp [sessionLoop, hc, handleXskRequest, parseArg_of_no_comma req hnc]

/-- Witness for C9: the bare messages `/connect` and `/xsk_map_fd`
(no comma, hence no second field) crash the respective parse sites. -/
theorem no_comma_requests_crash_witness :
    startSession (chars "net") [(chars "eth1", 7)] (.ok [])
      [chars "/connect"] = ⟨[], true⟩
    ∧ sessionLoop [(chars "eth1", 7)] [chars "/xsk_map_fd"] = ⟨[], true⟩ :=
  ⟨no_comma_requests_crash.1 (chars "net") [(chars "eth1", 7)] (.ok [])
      (chars "/connect") [] rfl (by decide),
   no_comma_requests_crash.2 [(chars "eth1", 7)] (chars "/xsk_map_fd") []
      rfl (by decide)⟩

/-- Claim C10: the transport attaches a descriptor only when the stored
value is strictly positive — `writeWithFD` sends the bare message for
any `fd ≤ 0`, so a device registered with a zero-or-negative descriptor
is acknowledged with `/fd_ack` carrying nothing attached. -/
theorem fd_attached_only_when_positive :
    (∀ (response : Str) (fd : Int), fd ≤ 0 →
        writeWithFD response fd = (response, none))
    ∧ (∀ (devs : Registry) (req iface : Str) (fd : Int) (rest : List Str),
        containsSub requestFd req = true → parseArg req = some iface →
        List.lookup iface devs = some fd → fd ≤ 0 →
        sessionLoop devs (req :: rest) =
          ⟨(responseFdAck, none) :: (sessionLoop devs rest).outputs,
            (sessionLoop devs rest).crashed⟩) := by
  constructor
  · intro r fd h
    have hng : ¬ fd > 0 := not_lt.mpr h
    simp [writeWithFD, hng]
  · intro devs req iface fd rest hc hp hl hle
    have hng : ¬ fd > 0 := not_lt.mpr hle
    simp [sessionLoop, hc, handleXskRequest, hp, hl, writeWithFD, hng]

/-- Witness for C10: a registry populated through `addDevice` with
descriptor value `0` answers the request with `/fd_ack` and nothing
attached. -/
theorem fd_attached_only_when_positive_witness :
    writeWithFD responseFdAck 0 = (responseFdAck, none)
    ∧ sessionLoop (addDevice [] (chars "eth1") 0)
        [chars "/xsk_map_fd, eth1"] = ⟨[(responseFdAck, none)], false⟩ :=
  ⟨fd_attached_only_when_positive.1 responseFdAck 0 (by decide),
   fd_attached_only_when_positive.2 (addDevice [] (chars "eth1") 0)
      (chars "/xsk_map_fd, eth1") (chars "eth1") 0 [] rfl rfl rfl
      (by decide)⟩

end Cndp
